import Mathlib

/-!
# Verification of the Collaborative-IDE core model

Shallow embedding of the real-time collaboration and access-control code of
the Collaborative-IDE repository:

* `src/hooks/useRealtimeCode.ts` — broadcast deduplication and the
  `code_update` receive handler;
* `src/hooks/useCollaboratorRole.ts` — role resolution and capability flags;
* `src/pages/JoinByLink.tsx` — link validation (secret matching) and the
  collaborator upsert performed on join;
* `src/components/JoinRoomDialog.tsx` — the legacy room-code join path;
* the row-level-security policies of `project_collaborators` (self-or-owner
  INSERT, owner-only UPDATE), which gate the join flows' writes: a
  non-owner's `INSERT … ON CONFLICT DO UPDATE` errors when the row already
  exists;
* `AccessRequestsPanel` / `RequestAccessDialog` — the approval workflow over
  the `access_requests` table (with its `UNIQUE(project_id, user_id, status)`
  constraint);
* `supabase/functions/execute-code/index.ts` — the execution gateway and its
  output normalization;
* the debounced persistence of file buffers (`useProjectFiles.saveFileContent`
  and `Project.handleFileSelect`).

Each definition mirrors the corresponding source function; theorems settle the
frozen specification claims about them.
-/

namespace CollabIDE

/-- Collaborator roles, mirroring the `collaborator_role` enum
(`'view' | 'edit' | 'full_access'`). -/
inductive Role where
  | view
  | edit
  | fullAccess
deriving DecidableEq, Repr

/-- Privilege rank of a role: `view < edit < full_access`. -/
def Role.rank : Role → Nat
  | .view => 0
  | .edit => 1
  | .fullAccess => 2

/-! ## Identity & role resolver (`useCollaboratorRole`) -/

/-- Result of the role query in `useCollaboratorRole.queryFn`: either the
string `'owner'` or the collaborator row's role (possibly absent). -/
inductive RoleQueryData where
  | owner
  | collab (role : Option Role)
deriving DecidableEq, Repr

/-- The query body of `useCollaboratorRole`: if `project.owner_id === userId`
return `'owner'`; otherwise return the collaborator row's role
(`maybeSingle`, so possibly `null`).  The grant lookup result is passed in as
`grant`. -/
def roleQuery (ownerId userId : String) (grant : Option Role) : RoleQueryData :=
  if ownerId = userId then .owner else .collab grant

/-- The values returned by `useCollaboratorRole`. -/
structure RolePerms where
  isOwner : Bool
  role : Option Role
  canView : Bool
  canEdit : Bool
  canManageFiles : Bool
deriving DecidableEq, Repr

/-- `useCollaboratorRole`: derives `isOwner`, `role` and the capability flags
from the query data, exactly as the hook body does. -/
def useCollaboratorRole (ownerId userId : String) (grant : Option Role) : RolePerms :=
  let data := roleQuery ownerId userId grant
  let isOwner : Bool := data = .owner
  let role : Option Role := if isOwner then none else
    match data with
    | .owner => none
    | .collab r => r
  { isOwner := isOwner
    role := role
    canView := isOwner || role.isSome
    canEdit := isOwner || role = some .edit || role = some .fullAccess
    canManageFiles := isOwner || role = some .fullAccess }

/-! ## Realtime broadcast (`useRealtimeCode`) -/

/-- Payload of a `code_update` broadcast: full file content, originating user
id, target file id (`fileId` is `null` when no file is selected). -/
structure CodePayload where
  code : String
  userId : String
  fileId : Option String
deriving DecidableEq, Repr

/-- Sender-side mutable refs of `useRealtimeCode` relevant to
`broadcastCode`: the `isLocalChangeRef` flag and `lastBroadcastRef`. -/
structure SenderState where
  isLocalChange : Bool
  lastBroadcast : String
deriving DecidableEq, Repr

/-- `broadcastCode`: returns early when `isLocalChangeRef.current` is set or
when `code === lastBroadcastRef.current`; otherwise records the code in
`lastBroadcastRef` and sends a `code_update` broadcast carrying
`{ code, userId, fileId }`.  (The channel and user are assumed present; the
typing-indicator presence updates are not modelled.) -/
def broadcastCode (userId : String) (fileId : Option String)
    (s : SenderState) (code : String) : SenderState × Option CodePayload :=
  if s.isLocalChange then (s, none)
  else if code = s.lastBroadcast then (s, none)
  else ({ s with lastBroadcast := code },
        some { code := code, userId := userId, fileId := fileId })

/-- Two consecutive `broadcastCode` calls with the same content.  Between the
calls the 50 ms timer of the receive handler may clear `isLocalChangeRef`;
`resetFlag` says whether that happened.  Returns the list of broadcasts
actually sent. -/
def broadcastCodeTwice (userId : String) (fileId : Option String)
    (s : SenderState) (code : String) (resetFlag : Bool) :
    SenderState × List CodePayload :=
  let r1 := broadcastCode userId fileId s code
  let s1 := if resetFlag then { r1.1 with isLocalChange := false } else r1.1
  let r2 := broadcastCode userId fileId s1 code
  (r2.1, r1.2.toList ++ r2.2.toList)

/-- Receiver-side state of `useRealtimeCode`: the user's own id, the
currently open file id, the editor buffer (what `onCodeChange` writes to) and
the `isLocalChangeRef` flag. -/
structure ReceiverState where
  userId : String
  currentFileId : Option String
  buffer : String
  isLocalChange : Bool
deriving DecidableEq, Repr

/-- The `code_update` broadcast handler: applies the payload (sets the
suppression flag and overwrites the buffer via `onCodeChange`) only when
`data.userId !== user.id && data.fileId === currentFileId`.  The returned
`Bool` records whether the update was applied. -/
def handleCodeUpdate (r : ReceiverState) (p : CodePayload) : ReceiverState × Bool :=
  if p.userId ≠ r.userId ∧ p.fileId = r.currentFileId then
    ({ r with buffer := p.code, isLocalChange := true }, true)
  else (r, false)

/-! ## Secret matching (`JoinByLink.validateLink` / `get_role_from_password`) -/

/-- The per-role secrets of a project row
(`view_password`, `edit_password`, `full_access_password`, each nullable). -/
structure ProjectSecrets where
  viewPassword : Option String
  editPassword : Option String
  fullAccessPassword : Option String
deriving DecidableEq, Repr

/-- The role-determination block of `validateLink`: tests
`full_access_password === password`, then `edit_password === password`, then
`view_password === password` (a `null` column never equals a string). -/
def determineRole (p : ProjectSecrets) (password : String) : Option Role :=
  if p.fullAccessPassword = some password then some .fullAccess
  else if p.editPassword = some password then some .edit
  else if p.viewPassword = some password then some .view
  else none

/-- The SQL function `public.get_role_from_password`: a `CASE` expression
testing `full_access_password = _password`, then `edit_password`, then
`view_password` (SQL `NULL = x` is not true, so a null column falls
through). -/
def get_role_from_password (p : ProjectSecrets) (password : String) : Option Role :=
  if p.fullAccessPassword = some password then some .fullAccess
  else if p.editPassword = some password then some .edit
  else if p.viewPassword = some password then some .view
  else none

/-- The stored secret of a given tier. -/
def secretOf (p : ProjectSecrets) : Role → Option String
  | .view => p.viewPassword
  | .edit => p.editPassword
  | .fullAccess => p.fullAccessPassword

/-! ## Collaborator grants (`project_collaborators`) -/

/-- A row of `project_collaborators`: `id`, `project_id`, `user_id`, `role`
with `UNIQUE(project_id, user_id)`. -/
structure Grant where
  id : Nat
  projectId : String
  userId : String
  role : Role
deriving DecidableEq, Repr

/-- Whether a grant row is keyed by the given `(project, user)` pair. -/
def Grant.hasKey (g : Grant) (pid uid : String) : Bool :=
  g.projectId = pid && g.userId = uid

/-- The role a grant table assigns to `(project, user)` (first matching row,
as `maybeSingle` / `LIMIT 1` does). -/
def lookupRole (grants : List Grant) (pid uid : String) : Option Role :=
  (grants.find? (·.hasKey pid uid)).map (·.role)

/-- The `upsert` into `project_collaborators` with
`onConflict: 'project_id,user_id'` (an `INSERT … ON CONFLICT DO UPDATE`), as
executed by the authenticated user `actorId` under the table's row-level
security.  `ownerId` is the owner of the target project.  When a row with
the key exists, the conflict-update is admitted only by the sole UPDATE
policy, `Owners can update collaborator roles`
(`is_project_owner(project_id, auth.uid())`); for a non-owner actor the
statement errors and writes nothing.  Otherwise the insert is admitted by
the INSERT policies `Users can join projects` (`auth.uid() = user_id`) or
`Owners can add collaborators`. -/
def upsertGrant (grants : List Grant) (newId : Nat)
    (actorId ownerId pid uid : String) (role : Role) :
    Except String (List Grant) :=
  if grants.any (·.hasKey pid uid) then
    if actorId = ownerId then
      .ok (grants.map (fun g =>
        if g.hasKey pid uid then { g with role := role } else g))
    else
      .error "new row violates row-level security policy for table project_collaborators"
  else
    if actorId = uid || actorId = ownerId then
      .ok ({ id := newId, projectId := pid, userId := uid, role := role } :: grants)
    else
      .error "new row violates row-level security policy for table project_collaborators"

/-! ## Join by link (`JoinByLink.tsx`) -/

/-- A project row as selected by `validateLink`
(`id, name, owner_id, view_password, edit_password, full_access_password`). -/
structure LinkProject where
  id : String
  name : String
  ownerId : String
  secrets : ProjectSecrets
deriving DecidableEq, Repr

/-- Outcome of `validateLink`, extended with the two outcomes of the
subsequent `handleJoin` click. -/
inductive LinkOutcome where
  /-- `setError(msg)` was called with the given message. -/
  | failure (msg : String)
  /-- The visitor is the project owner; navigate straight to the project. -/
  | ownProject (projectId : String)
  /-- `setProjectInfo({id, name, role})`: the link is valid for this role. -/
  | info (projectId name : String) (role : Role)
  /-- `handleJoin` succeeded: success toast and navigation to the project. -/
  | joined (projectId : String) (role : Role)
  /-- `handleJoin`'s upsert errored: `toast.error('Failed to join project')`. -/
  | joinFailed
deriving DecidableEq, Repr

/-- `validateLink`: looks up the project by room code (`lookup` is the result
of the `.eq('room_code', …).single()` query), determines the role from the
password, then either errors, short-circuits for the owner, or records the
project info.  It performs no write to `project_collaborators`. -/
def validateLink (lookup : Option LinkProject) (password : String)
    (user : Option String) : LinkOutcome :=
  match lookup with
  | none => .failure "Project not found. The link may be invalid or expired."
  | some project =>
    match determineRole project.secrets password with
    | none => .failure "Invalid password. Please check your link."
    | some role =>
      match user with
      | some uid =>
        if project.ownerId = uid then .ownProject project.id
        else .info project.id project.name role
      | none => .info project.id project.name role

/-- `JoinByLink.handleJoin`: the authenticated user upserts the collaborator
row `{project_id, user_id, role}` with `onConflict: 'project_id,user_id'`;
on `collabError` the code throws and shows the failed-to-join toast. -/
def linkHandleJoin (grants : List Grant) (newId : Nat)
    (projectId uid ownerId : String) (role : Role) :
    Except String (List Grant) :=
  upsertGrant grants newId uid ownerId projectId uid role

/-- The whole join-by-link flow on the grant table: grants are only written
when `validateLink` produced `info`, in which case `handleJoin` attempts the
upsert of the determined role; a failed upsert writes nothing and surfaces
the join-failure toast. -/
def joinByLinkFlow (grants : List Grant) (newId : Nat)
    (lookup : Option LinkProject) (password : String) (uid : String) :
    List Grant × LinkOutcome :=
  match lookup with
  | none => (grants, validateLink none password (some uid))
  | some project =>
    match validateLink (some project) password (some uid) with
    | .info pid _name role =>
      match linkHandleJoin grants newId pid uid project.ownerId role with
      | .ok grants2 => (grants2, .joined pid role)
      | .error _ => (grants, .joinFailed)
    | outcome => (grants, outcome)

/-! ## Join Room dialog (`JoinRoomDialog.tsx`) -/

/-- A project row as selected by `JoinRoomDialog.handleJoin`
(`id, room_password, owner_id`; the per-role secrets are not selected). -/
structure RoomProject where
  id : String
  roomPassword : Option String
  ownerId : String
deriving DecidableEq, Repr

/-- Outcome of `JoinRoomDialog.handleJoin`. -/
inductive RoomJoinOutcome where
  | roomNotFound
  | ownProject (projectId : String)
  | incorrectPassword
  | joined (projectId : String) (role : Role)
  /-- The upsert errored: `toast.error('Failed to join room')`. -/
  | joinFailed
deriving DecidableEq, Repr

/-- The `room_password` gate of `JoinRoomDialog.handleJoin`:
`if (project.room_password && project.room_password !== password)`.
A `null` column and an empty string are both falsy in JavaScript. -/
def roomPasswordBlocks (roomPassword : Option String) (password : String) : Bool :=
  match roomPassword with
  | none => false
  | some rp => rp ≠ "" && rp ≠ password

/-- `JoinRoomDialog.handleJoin` for an authenticated user: look the project up
by room code, short-circuit for the owner, check the single legacy
`room_password`, then attempt to upsert the collaborator row with the role
the *joining user selected* in the dialog; on `collabError` nothing is
written and the failed-to-join toast is shown. -/
def joinRoomDialogJoin (grants : List Grant) (newId : Nat)
    (lookup : Option RoomProject) (uid password : String)
    (selectedRole : Role) : List Grant × RoomJoinOutcome :=
  match lookup with
  | none => (grants, .roomNotFound)
  | some project =>
    if project.ownerId = uid then (grants, .ownProject project.id)
    else if roomPasswordBlocks project.roomPassword password then
      (grants, .incorrectPassword)
    else
      match upsertGrant grants newId uid project.ownerId project.id uid
          selectedRole with
      | .ok grants2 => (grants2, .joined project.id selectedRole)
      | .error _ => (grants, .joinFailed)

/-! ## Access requests (`access_requests`) -/

/-- Status of an access request. -/
inductive ReqStatus where
  | pending
  | approved
  | rejected
deriving DecidableEq, Repr

/-- A row of `access_requests` (fields relevant to the workflow; the table has
`UNIQUE(project_id, user_id, status)`). -/
structure AccessRequest where
  id : Nat
  projectId : String
  userId : String
  requestedRole : Role
  status : ReqStatus
  respondedAt : Bool
deriving DecidableEq, Repr

/-- Whether a row collides with key `(pid, uid, st)` under
`UNIQUE(project_id, user_id, status)`. -/
def AccessRequest.hasKey (r : AccessRequest) (pid uid : String)
    (st : ReqStatus) : Bool :=
  r.projectId = pid && r.userId = uid && r.status = st

/-- An `INSERT` into `access_requests` under the
`UNIQUE(project_id, user_id, status)` constraint: fails with a duplicate-key
error when a row with the same `(project_id, user_id, status)` exists. -/
def insertRequest (reqs : List AccessRequest) (r : AccessRequest) :
    Except String (List AccessRequest) :=
  if reqs.any (·.hasKey r.projectId r.userId r.status) then
    .error "duplicate key value violates unique constraint"
  else
    .ok (r :: reqs)

/-- `RequestAccessDialog.createRequest`: inserts
`{project_id, user_id, requested_role, …}` — the status column takes its
default `'pending'`. -/
def createRequest (reqs : List AccessRequest) (newId : Nat)
    (pid uid : String) (role : Role) : Except String (List AccessRequest) :=
  insertRequest reqs
    { id := newId, projectId := pid, userId := uid, requestedRole := role,
      status := .pending, respondedAt := false }

/-- `rejectRequest`: `UPDATE access_requests SET status='rejected',
responded_at=… WHERE id = requestId`. -/
def rejectRequest (reqs : List AccessRequest) (requestId : Nat) :
    List AccessRequest :=
  reqs.map (fun r =>
    if r.id = requestId then { r with status := .rejected, respondedAt := true }
    else r)

/-- At most one *pending* request per `(project, user)`. -/
def atMostOnePending (reqs : List AccessRequest) : Prop :=
  ∀ pid uid, (reqs.filter (·.hasKey pid uid .pending)).length ≤ 1

/-! ## Approval (`AccessRequestsPanel.approveRequest`) -/

/-- Database state touched by `approveRequest`. -/
structure DBState where
  grants : List Grant
  requests : List AccessRequest
deriving DecidableEq, Repr

/-- First half of `approveRequest`: check whether a collaborator row for
`(request.project_id, request.user_id)` exists; if so `UPDATE` its role to
the requested role (matching on the row's `id`), otherwise `INSERT` a new
collaborator row. -/
def approveGrantStep (db : DBState) (newId : Nat) (req : AccessRequest) : DBState :=
  match db.grants.find? (·.hasKey req.projectId req.userId) with
  | some existing =>
    { db with grants := db.grants.map (fun g =>
        if g.id = existing.id then { g with role := req.requestedRole } else g) }
  | none =>
    { db with grants :=
        { id := newId, projectId := req.projectId, userId := req.userId,
          role := req.requestedRole } :: db.grants }

/-- Second half of `approveRequest`: `UPDATE access_requests SET
status='approved', responded_at=… WHERE id = request.id`. -/
def approveStatusStep (db : DBState) (req : AccessRequest) : DBState :=
  { db with requests := db.requests.map (fun r =>
      if r.id = req.id then { r with status := .approved, respondedAt := true }
      else r) }

/-- `approveRequest`: the grant write, then the status update — two separate
sequential database writes, not a transaction. -/
def approveRequest (db : DBState) (newId : Nat) (req : AccessRequest) : DBState :=
  approveStatusStep (approveGrantStep db newId req) req

/-- The sequence of database states an execution of `approveRequest` passes
through: initial, after the grant write, after the status update. -/
def approveStates (db : DBState) (newId : Nat) (req : AccessRequest) : List DBState :=
  [db, approveGrantStep db newId req, approveRequest db newId req]

/-- The status of the request with the given id. -/
def statusOf (reqs : List AccessRequest) (requestId : Nat) : Option ReqStatus :=
  (reqs.find? (·.id = requestId)).map (·.status)

/-! ## Execution gateway (`supabase/functions/execute-code/index.ts`) -/

/-- A Piston runtime configuration entry. -/
structure LangConfig where
  language : String
  version : String
  filename : String
deriving DecidableEq, Repr

/-- `LANGUAGE_CONFIG`: the supported language identifiers and their runtime
triples. -/
def LANGUAGE_CONFIG : String → Option LangConfig
  | "javascript" => some { language := "javascript", version := "18.15.0", filename := "main.js" }
  | "typescript" => some { language := "typescript", version := "5.0.3", filename := "main.ts" }
  | "python" => some { language := "python", version := "3.10.0", filename := "main.py" }
  | "cpp" => some { language := "c++", version := "10.2.0", filename := "main.cpp" }
  | "c" => some { language := "c", version := "10.2.0", filename := "main.c" }
  | "java" => some { language := "java", version := "15.0.2", filename := "Main.java" }
  | _ => none

/-- The `compile` stage of a Piston response (`output`, exit `code`); a
missing field is the empty string. -/
structure CompileResult where
  output : String
  code : Int
deriving DecidableEq, Repr

/-- The `run` stage of a Piston response. -/
structure RunResult where
  output : String
  stderr : String
  code : Int
deriving DecidableEq, Repr

/-- A parsed Piston response body. -/
structure PistonResult where
  compile : Option CompileResult
  run : Option RunResult
deriving DecidableEq, Repr

/-- The output-formatting block of the edge function, mirroring the sequence
of `output.push` calls (JavaScript string truthiness is `≠ ""`):
compile errors (only when `compile.output` is truthy and `compile.code !== 0`),
then `run.output`, then prefixed `stderr`, then the synthetic exit-code line
when the process exited non-zero with falsy `output` and `stderr`; a single
success line when nothing was pushed. -/
def formatOutput (r : PistonResult) : List String :=
  let output : List String := []
  let output := match r.compile with
    | some c =>
      if c.output ≠ "" then
        if c.code ≠ 0 then output ++ ["❌ Compilation Error:", c.output.trim]
        else output
      else output
    | none => output
  let output := match r.run with
    | some run =>
      let output := if run.output ≠ "" then output ++ [run.output.trim] else output
      let output :=
        if run.stderr ≠ "" ∧ run.stderr.trim ≠ "" then
          output ++ ["⚠️ stderr: " ++ run.stderr.trim]
        else output
      if run.code ≠ 0 ∧ run.output = "" ∧ run.stderr = "" then
        output ++ ["❌ Process exited with code " ++ toString run.code]
      else output
    | none => output
  if output = [] then ["✓ Code executed successfully (no output)"] else output

/-- The response of the edge function. -/
inductive ExecResponse where
  /-- A 400 response before any call to the execution service. -/
  | badRequest (error : String)
  /-- A 500 response relaying a non-2xx answer of the execution service. -/
  | serviceError (error : String)
  /-- The normalized `{ output, success: true }` response. -/
  | success (output : List String)
deriving DecidableEq, Repr

/-- The request handler of the edge function.  `fetchResult` stands for the
answer of the Piston service (`Except` for a non-2xx response); the returned
`Bool` records whether that network call was made at all. -/
def executeCodeServe (codeStr language : String)
    (fetchResult : Except String PistonResult) : ExecResponse × Bool :=
  if codeStr = "" || language = "" then
    (.badRequest "Missing code or language", false)
  else
    match LANGUAGE_CONFIG language with
    | none => (.badRequest ("Unsupported language: " ++ language), false)
    | some _ =>
      match fetchResult with
      | .error e => (.serviceError ("Execution service error: " ++ e), true)
      | .ok r => (.success (formatOutput r), true)

/-- The compile-error segment of the normalized output. -/
def compileErrorLines (r : PistonResult) : List String :=
  match r.compile with
  | some c =>
    if c.output ≠ "" ∧ c.code ≠ 0 then ["❌ Compilation Error:", c.output.trim]
    else []
  | none => []

/-- The run-output segment of the normalized output. -/
def runOutputLines (r : PistonResult) : List String :=
  match r.run with
  | some run => if run.output ≠ "" then [run.output.trim] else []
  | none => []

/-- The marked stderr segment of the normalized output. -/
def stderrLines (r : PistonResult) : List String :=
  match r.run with
  | some run =>
    if run.stderr ≠ "" ∧ run.stderr.trim ≠ "" then
      ["⚠️ stderr: " ++ run.stderr.trim]
    else []
  | none => []

/-- The synthetic exit-code segment of the normalized output. -/
def exitCodeLines (r : PistonResult) : List String :=
  match r.run with
  | some run =>
    if run.code ≠ 0 ∧ run.output = "" ∧ run.stderr = "" then
      ["❌ Process exited with code " ++ toString run.code]
    else []
  | none => []

/-! ## Debounced persistence (`useProjectFiles` / `Project.handleFileSelect`) -/

/-- The state of the single debounced saver of `useProjectFiles` plus the
persisted `project_files.content` column: `pending` is the one
`saveTimeoutRef` timer (file id, content, absolute fire time). -/
structure SaverState where
  pending : Option (String × String × Nat)
  persisted : List (String × String)
deriving DecidableEq, Repr

/-- `UPDATE project_files SET content = … WHERE id = fileId`. -/
def setContent (files : List (String × String)) (fileId content : String) :
    List (String × String) :=
  files.map (fun f => if f.1 = fileId then (f.1, content) else f)

/-- The persisted content of a file. -/
def getContent (files : List (String × String)) (fileId : String) : Option String :=
  (files.find? (·.1 = fileId)).map (·.2)

/-- `useProjectFiles.saveFileContent`: clears the pending `saveTimeoutRef`
timer (whatever file it was for) and schedules a new save of `(fileId,
content)` to fire 1000 ms from `now`.  Nothing is persisted yet. -/
def saveFileContent (s : SaverState) (fileId content : String) (now : Nat) :
    SaverState :=
  { s with pending := some (fileId, content, now + 1000) }

/-- The timer firing: when the pending deadline has passed at `now`, the
scheduled mutation runs and persists the recorded content. -/
def fireDue (s : SaverState) (now : Nat) : SaverState :=
  match s.pending with
  | some (fileId, content, deadline) =>
    if deadline ≤ now then
      { pending := none, persisted := setContent s.persisted fileId content }
    else s
  | none => s

/-- The save-on-switch step of `Project.handleFileSelect`: when a file is
selected and the buffer differs from its (last fetched) content, call
`saveFileContent` — the debounced saver — for the outgoing file. -/
def handleFileSelectSave (s : SaverState)
    (selected : Option (String × String)) (buffer : String) (now : Nat) :
    SaverState :=
  match selected with
  | some (fileId, content) =>
    if buffer ≠ content then saveFileContent s fileId buffer now else s
  | none => s

/-! ## Helper lemmas -/

/-- Overwriting the role column leaves the `(project, user)` key unchanged. -/
theorem hasKey_set_role (g : Grant) (r : Role) (p u : String) :
    ({ g with role := r } : Grant).hasKey p u = g.hasKey p u := rfl

/-- Resolving a key against a nonempty grant table checks the head row
first. -/
theorem lookupRole_cons (g : Grant) (l : List Grant) (p u : String) :
    lookupRole (g :: l) p u =
      if g.hasKey p u = true then some g.role else lookupRole l p u := by
  by_cases hg : g.hasKey p u = true <;> simp [lookupRole, List.find?_cons, hg]

/-- A successful grant write leaves no pending error: the first-join insert
branch of the RLS-gated upsert, admitted by the self-insert policy. -/
theorem upsertGrant_insert (gs : List Grant) (newId : Nat)
    (ownerId pid uid : String) (role : Role)
    (hnew : gs.any (·.hasKey pid uid) = false) :
    upsertGrant gs newId uid ownerId pid uid role =
      .ok ({ id := newId, projectId := pid, userId := uid, role := role } :: gs) := by
  unfold upsertGrant
  rw [if_neg (by simp [hnew]), if_pos (by simp)]

/-! ## Theorems -/

/-- C10: for every `(project, user)`, role resolution returns owner exactly
when the user is the project's owner; otherwise it returns the collaborator
grant's role (none when absent); and the derived capability flags satisfy
`canView = owner OR role ≠ none`, `canEdit = owner OR role ∈ {edit,
full_access}`, `canManageFiles = owner OR role = full_access`. -/
theorem resolveRole_capabilities (ownerId userId : String) (grant : Option Role) :
    ((useCollaboratorRole ownerId userId grant).isOwner = true ↔ ownerId = userId) ∧
    (ownerId ≠ userId → (useCollaboratorRole ownerId userId grant).role = grant) ∧
    ((useCollaboratorRole ownerId userId grant).canView = true ↔
      ownerId = userId ∨ (useCollaboratorRole ownerId userId grant).role ≠ none) ∧
    ((useCollaboratorRole ownerId userId grant).canEdit = true ↔
      ownerId = userId ∨ (useCollaboratorRole ownerId userId grant).role = some .edit ∨
      (useCollaboratorRole ownerId userId grant).role = some .fullAccess) ∧
    ((useCollaboratorRole ownerId userId grant).canManageFiles = true ↔
      ownerId = userId ∨ (useCollaboratorRole ownerId userId grant).role = some .fullAccess) := by
  by_cases h : ownerId = userId
  · simp [useCollaboratorRole, roleQuery, h]
  · cases grant with
    | none => simp [useCollaboratorRole, roleQuery, h]
    | some r => cases r <;> simp [useCollaboratorRole, roleQuery, h]

/-- Witness for `resolveRole_capabilities` at a concrete non-owner input. -/
theorem resolveRole_capabilities_witness :
    ("alice" : String) ≠ "bob" ∧
    ((useCollaboratorRole "alice" "bob" (some .edit)).isOwner = true ↔
      ("alice" : String) = "bob") ∧
    (useCollaboratorRole "alice" "bob" (some .edit)).role = some .edit ∧
    (useCollaboratorRole "alice" "bob" (some .edit)).canEdit = true := by
  have h := resolveRole_capabilities "alice" "bob" (some .edit)
  refine ⟨by decide, h.1, h.2.1 (by decide), ?_⟩
  exact (h.2.2.2.1).mpr (Or.inr (Or.inl (h.2.1 (by decide))))

/-- C1: two consecutive `broadcastCode` calls with the same content send at
most one broadcast; and the receive handler applies a `code_update` payload
to the local buffer exactly when the payload's user id differs from the
receiver's and its file id equals the receiver's open file — in particular a
user's own broadcast never changes that user's state. -/
theorem broadcast_dedup_self_suppression
    (userId : String) (fileId : Option String) (s : SenderState) (c : String)
    (resetFlag : Bool) (r : ReceiverState) (p : CodePayload) :
    (broadcastCodeTwice userId fileId s c resetFlag).2.length ≤ 1 ∧
    ((handleCodeUpdate r p).2 = true ↔
      (p.userId ≠ r.userId ∧ p.fileId = r.currentFileId)) ∧
    ((handleCodeUpdate r p).1.buffer =
      if p.userId ≠ r.userId ∧ p.fileId = r.currentFileId then p.code else r.buffer) ∧
    (p.userId = r.userId → (handleCodeUpdate r p).1 = r) := by
  refine ⟨?_, ?_, ?_, ?_⟩
  · unfold broadcastCodeTwice broadcastCode
    cases hl : s.isLocalChange <;> cases resetFlag <;>
      by_cases hc : c = s.lastBroadcast <;> simp [hl, hc]
  · unfold handleCodeUpdate
    split <;> simp_all
  · unfold handleCodeUpdate
    split <;> simp_all
  · intro h
    unfold handleCodeUpdate
    split <;> simp_all

/-- Witness for `broadcast_dedup_self_suppression`: a self-originated payload
leaves the receiver unchanged. -/
theorem broadcast_dedup_self_suppression_witness :
    (handleCodeUpdate
        { userId := "u1", currentFileId := some "f", buffer := "b", isLocalChange := false }
        { code := "x", userId := "u1", fileId := some "f" }).1 =
      { userId := "u1", currentFileId := some "f", buffer := "b", isLocalChange := false } :=
  (broadcast_dedup_self_suppression "u1" (some "f")
      { isLocalChange := false, lastBroadcast := "" } "x" false
      { userId := "u1", currentFileId := some "f", buffer := "b", isLocalChange := false }
      { code := "x", userId := "u1", fileId := some "f" }).2.2.2 rfl

/-- C4: secret matching tests `full_access`, then `edit`, then `view`; when a
secret value is stored for several tiers the redeemed role is the
highest-privilege matching tier, and the SQL function
`get_role_from_password` agrees with the client-side check. -/
theorem redeem_secret_priority (p : ProjectSecrets) (pw : String) (r r' : Role)
    (h : determineRole p pw = some r) (h' : secretOf p r' = some pw) :
    get_role_from_password p pw = determineRole p pw ∧
    secretOf p r = some pw ∧ Role.rank r' ≤ Role.rank r := by
  refine ⟨rfl, ?_, ?_⟩
  · unfold determineRole at h
    split_ifs at h with h1 h2 h3 <;> cases h <;> simpa [secretOf] using ‹_›
  · unfold determineRole at h
    split_ifs at h with h1 h2 h3 <;> cases h <;>
      cases r' <;> simp_all [secretOf, Role.rank]

/-- Witness for `redeem_secret_priority`: with the same secret stored for all
three tiers, redemption yields `full_access`, above the also-matching `edit`
tier. -/
theorem redeem_secret_priority_witness :
    determineRole ⟨some "s", some "s", some "s"⟩ "s" = some .fullAccess ∧
    secretOf ⟨some "s", some "s", some "s"⟩ .edit = some "s" ∧
    (get_role_from_password ⟨some "s", some "s", some "s"⟩ "s" =
        determineRole ⟨some "s", some "s", some "s"⟩ "s" ∧
      secretOf ⟨some "s", some "s", some "s"⟩ .fullAccess = some "s" ∧
      Role.rank .edit ≤ Role.rank .fullAccess) :=
  ⟨by decide, by decide,
    redeem_secret_priority ⟨some "s", some "s", some "s"⟩ "s" .fullAccess .edit
      (by decide) (by decide)⟩

/-- C5, at the failing input: user `u1` holds a `view` grant on project `p1`
(owned by `owner1`) and redeems the full-access secret.  The link validates
to `full_access`, but `handleJoin`'s `INSERT … ON CONFLICT DO UPDATE` hits
the existing row and is rejected by the owner-only UPDATE policy of
`project_collaborators`: the join fails, nothing is written, and the stored
role remains `view` — the existing grant is never overwritten, although both
the claim and the client code (`onConflict: 'project_id,user_id'`) intend the
overwrite. -/
theorem redeem_overwrite_blocked_by_rls :
    upsertGrant [⟨0, "p1", "u1", .view⟩] 1 "u1" "owner1" "p1" "u1"
        .fullAccess =
      .error "new row violates row-level security policy for table project_collaborators" ∧
    joinByLinkFlow [⟨0, "p1", "u1", .view⟩] 1
        (some ⟨"p1", "Proj", "owner1", ⟨some "v", some "e", some "f"⟩⟩)
        "f" "u1" =
      ([⟨0, "p1", "u1", .view⟩], .joinFailed) ∧
    lookupRole
      (joinByLinkFlow [⟨0, "p1", "u1", .view⟩] 1
        (some ⟨"p1", "Proj", "owner1", ⟨some "v", some "e", some "f"⟩⟩)
        "f" "u1").1 "p1" "u1" = some .view ∧
    Role.view ≠ Role.fullAccess :=
  ⟨rfl, rfl, rfl, by decide⟩

/-- C6 counterexample: an authenticated non-owner (`u1`) with an existing
`view` row re-joins through the Join Room dialog of a project with no
`room_password`, selecting `full_access`; the dialog's upsert is rejected by
the owner-only UPDATE policy, so the join fails and the grant keeps role
`view` instead of the selected role — the claim's universal fails at this
join. -/
theorem joinRoom_rejoin_blocked :
    joinRoomDialogJoin [⟨0, "p1", "u1", .view⟩] 1
        (some ⟨"p1", none, "owner1"⟩) "u1" "" .fullAccess =
      ([⟨0, "p1", "u1", .view⟩], .joinFailed) ∧
    lookupRole
      (joinRoomDialogJoin [⟨0, "p1", "u1", .view⟩] 1
        (some ⟨"p1", none, "owner1"⟩) "u1" "" .fullAccess).1 "p1" "u1" =
      some .view ∧
    Role.view ≠ Role.fullAccess := by
  decide

/-- C6 amended: through the Join Room dialog an authenticated non-owner *who
has no existing grant row for the project* obtains whichever role they
selected whenever the legacy `room_password` is unset or matches — the three
per-role secrets are never consulted on this path (the dialog's query does
not even select them), so `full_access` is obtainable from the room code
alone when no `room_password` is set.  (A user with an existing row is
instead rejected by the owner-only UPDATE policy and keeps their old
role.) -/
theorem joinRoom_first_join_selected_role (gs : List Grant) (newId : Nat)
    (project : RoomProject) (uid password : String) (selectedRole : Role)
    (hown : project.ownerId ≠ uid)
    (hpw : project.roomPassword = none ∨ project.roomPassword = some password)
    (hnew : gs.any (·.hasKey project.id uid) = false) :
    joinRoomDialogJoin gs newId (some project) uid password selectedRole =
      ({ id := newId, projectId := project.id, userId := uid,
         role := selectedRole } :: gs,
        .joined project.id selectedRole) ∧
    lookupRole (joinRoomDialogJoin gs newId (some project) uid password
        selectedRole).1 project.id uid = some selectedRole := by
  have hblock : roomPasswordBlocks project.roomPassword password = false := by
    rcases hpw with h | h <;> simp [roomPasswordBlocks, h]
  have hup := upsertGrant_insert gs newId project.ownerId project.id uid
    selectedRole hnew
  constructor
  · simp [joinRoomDialogJoin, hown, hblock, hup]
  · simp [joinRoomDialogJoin, hown, hblock, hup, lookupRole_cons, Grant.hasKey]

/-- Witness for `joinRoom_first_join_selected_role`: with no `room_password`
set and no prior grant row, a non-owner joins with `full_access` knowing only
the room code. -/
theorem joinRoom_first_join_selected_role_witness :
    (⟨"p1", none, "owner1"⟩ : RoomProject).ownerId ≠ "joe" ∧
    (([] : List Grant).any (·.hasKey "p1" "joe")) = false ∧
    lookupRole
      (joinRoomDialogJoin [] 0 (some ⟨"p1", none, "owner1"⟩) "joe" ""
        .fullAccess).1 "p1" "joe" = some .fullAccess :=
  ⟨by decide, by decide,
    (joinRoom_first_join_selected_role [] 0 ⟨"p1", none, "owner1"⟩ "joe" ""
      .fullAccess (by decide) (Or.inl rfl) (by decide)).2⟩

/-- C7: at most one pending request per `(project, user)`: a second
`createRequest` while the first is pending fails with the duplicate-key error
(surfaced as `AlreadyPending`), the single-pending invariant is preserved,
and after the first request is rejected a new request succeeds. -/
theorem single_pending_request (reqs reqs1 : List AccessRequest)
    (pid uid : String) (r r' : Role) (id1 id2 : Nat)
    (hfresh : ∀ x ∈ reqs, x.id ≠ id1)
    (hmo : atMostOnePending reqs)
    (h1 : createRequest reqs id1 pid uid r = .ok reqs1) :
    createRequest reqs1 id2 pid uid r' =
      .error "duplicate key value violates unique constraint" ∧
    atMostOnePending reqs1 ∧
    (∃ reqs2, createRequest (rejectRequest reqs1 id1) id2 pid uid r' =
      .ok reqs2) := by
  unfold createRequest insertRequest at h1
  split at h1
  · exact absurd h1 (by simp)
  · rename_i hany
    have hany' : reqs.any (·.hasKey pid uid .pending) = false := by
      simpa using hany
    have hrfl := Except.ok.inj h1
    subst hrfl
    refine ⟨?_, ?_, ?_⟩
    · simp [createRequest, insertRequest, AccessRequest.hasKey]
    · intro p' u'
      by_cases hk :
          (AccessRequest.hasKey
            { id := id1, projectId := pid, userId := uid, requestedRole := r,
              status := .pending, respondedAt := false } p' u' .pending) = true
      · have hpu : pid = p' ∧ uid = u' := by
          have := hk
          simp [AccessRequest.hasKey] at this
          exact ⟨this.1, this.2⟩
        have hfil : reqs.filter (·.hasKey p' u' .pending) = [] := by
          refine List.filter_eq_nil_iff.mpr ?_
          intro x hx
          rw [← hpu.1, ← hpu.2]
          simpa using List.any_eq_false.mp hany' x hx
        simp [hk, hfil]
      · simpa [hk] using hmo p' u'
    · have hany2 :
          (rejectRequest
            ({ id := id1, projectId := pid, userId := uid, requestedRole := r,
               status := .pending, respondedAt := false } :: reqs) id1).any
            (·.hasKey pid uid .pending) = false := by
        refine List.any_eq_false.mpr ?_
        intro x hx
        simp only [rejectRequest, List.mem_map, List.mem_cons] at hx
        obtain ⟨y, hy, rfl⟩ := hx
        rcases hy with rfl | hy
        · simp [AccessRequest.hasKey]
        · rw [if_neg (hfresh y hy)]
          simpa using List.any_eq_false.mp hany' y hy
      exact ⟨_, by unfold createRequest insertRequest; rw [if_neg (by simp [hany2])]⟩

/-- Witness for `single_pending_request` on an initially empty request
table. -/
theorem single_pending_request_witness :
    (∀ x ∈ ([] : List AccessRequest), x.id ≠ 1) ∧
    atMostOnePending [] ∧
    createRequest [] 1 "p" "u" .edit =
      .ok [{ id := 1, projectId := "p", userId := "u", requestedRole := .edit,
             status := .pending, respondedAt := false }] ∧
    createRequest
      [{ id := 1, projectId := "p", userId := "u", requestedRole := .edit,
         status := .pending, respondedAt := false }] 2 "p" "u" .fullAccess =
      .error "duplicate key value violates unique constraint" := by
  have h := single_pending_request [] _ "p" "u" .edit .fullAccess 1 2
    (by simp) (by intro p u; simp [atMostOnePending]) rfl
  exact ⟨by simp, by intro p u; simp [atMostOnePending], rfl, h.1⟩

set_option maxHeartbeats 1600000 in
/-- C9: an unsupported (non-empty) language id yields the
`Unsupported language` error with no network call; a supported one (here
`java`) forwards to the service and normalizes its result into compile-error
lines (only on non-zero compile exit), then run output, then prefixed stderr,
then the synthetic exit-code line only for a silent non-zero exit, with a
single success line when nothing was produced. -/
theorem execute_gateway_normalization (codeStr lang : String)
    (fetch : Except String PistonResult)
    (hc : codeStr ≠ "") (hlne : lang ≠ "") (hl : LANGUAGE_CONFIG lang = none) :
    executeCodeServe codeStr lang fetch =
      (.badRequest ("Unsupported language: " ++ lang), false) ∧
    (∀ r : PistonResult, executeCodeServe codeStr "java" (.ok r) =
      (.success (formatOutput r), true)) ∧
    (∀ r : PistonResult,
      formatOutput r =
        if compileErrorLines r ++ runOutputLines r ++ stderrLines r ++
            exitCodeLines r = [] then
          ["✓ Code executed successfully (no output)"]
        else
          compileErrorLines r ++ runOutputLines r ++ stderrLines r ++
            exitCodeLines r) := by
  refine ⟨?_, ?_, ?_⟩
  · simp [executeCodeServe, hc, hlne, hl]
  · intro r
    simp [executeCodeServe, hc, LANGUAGE_CONFIG]
  · intro r
    rcases r with ⟨compile, run⟩
    cases compile with
    | none =>
      cases run with
      | none => simp [formatOutput, compileErrorLines, runOutputLines, stderrLines, exitCodeLines]
      | some rr =>
        simp only [formatOutput, compileErrorLines, runOutputLines, stderrLines, exitCodeLines]
        split_ifs <;> simp_all
    | some c =>
      cases run with
      | none =>
        simp only [formatOutput, compileErrorLines, runOutputLines, stderrLines, exitCodeLines]
        split_ifs <;> simp_all
      | some rr =>
        simp only [formatOutput, compileErrorLines, runOutputLines, stderrLines, exitCodeLines]
        split_ifs <;> simp_all

/-- Witness for `execute_gateway_normalization`: the language id `ruby` is
rejected without a network call, and a silent non-zero exit yields exactly
the synthetic exit-code line. -/
theorem execute_gateway_normalization_witness :
    ("print(1)" : String) ≠ "" ∧ ("ruby" : String) ≠ "" ∧
    LANGUAGE_CONFIG "ruby" = none ∧
    executeCodeServe "print(1)" "ruby" (.ok ⟨none, none⟩) =
      (.badRequest ("Unsupported language: " ++ "ruby"), false) ∧
    formatOutput ⟨none, some ⟨"", "", 1⟩⟩ = ["❌ Process exited with code 1"] := by
  have h := execute_gateway_normalization "print(1)" "ruby" (.ok ⟨none, none⟩)
    (by decide) (by decide) rfl
  refine ⟨by decide, by decide, rfl, h.1, ?_⟩
  rw [h.2.2 ⟨none, some ⟨"", "", 1⟩⟩]
  rfl

/-- C2 counterexample: running `approveRequest` on a pending request passes
through the state after the grant write and before the status update, in
which the Collaborator Grant with the requested role exists while the
request's status is still `pending` — an observable intermediate state with
one side of the supposed atomic pair and not the other. -/
theorem approve_not_atomic_counterexample :
    approveGrantStep ⟨[], [⟨5, "p1", "u1", .edit, .pending, false⟩]⟩ 7
        ⟨5, "p1", "u1", .edit, .pending, false⟩ ∈
      approveStates ⟨[], [⟨5, "p1", "u1", .edit, .pending, false⟩]⟩ 7
        ⟨5, "p1", "u1", .edit, .pending, false⟩ ∧
    lookupRole (approveGrantStep ⟨[], [⟨5, "p1", "u1", .edit, .pending, false⟩]⟩ 7
        ⟨5, "p1", "u1", .edit, .pending, false⟩).grants "p1" "u1" = some .edit ∧
    statusOf (approveGrantStep ⟨[], [⟨5, "p1", "u1", .edit, .pending, false⟩]⟩ 7
        ⟨5, "p1", "u1", .edit, .pending, false⟩).requests 5 = some .pending := by
  decide

/-- Resolving a request id against a nonempty table checks the head row
first. -/
theorem statusOf_cons (r : AccessRequest) (l : List AccessRequest) (rid : Nat) :
    statusOf (r :: l) rid =
      if r.id = rid then some r.status else statusOf l rid := by
  by_cases hr : r.id = rid <;> simp [statusOf, List.find?_cons, hr]

/-- The grant write of `approveRequest` leaves the request table
untouched. -/
theorem approveGrantStep_requests (db : DBState) (newId : Nat)
    (req : AccessRequest) :
    (approveGrantStep db newId req).requests = db.requests := by
  unfold approveGrantStep
  split <;> rfl

/-- The update-by-id branch of the approval's grant write resolves the
request's key to the requested role. -/
theorem lookupRole_update_by_id (gs : List Grant) (p u : String) (r : Role)
    (ex : Grant) (hfind : gs.find? (·.hasKey p u) = some ex) :
    lookupRole
      (gs.map (fun g => if g.id = ex.id then { g with role := r } else g))
      p u = some r := by
  induction gs with
  | nil => simp at hfind
  | cons g t ih =>
    cases hg : g.hasKey p u with
    | true =>
      rw [List.find?_cons] at hfind
      simp only [hg] at hfind
      obtain rfl : g = ex := by simpa using hfind
      simp [lookupRole_cons, hasKey_set_role, hg]
    | false =>
      rw [List.find?_cons] at hfind
      simp only [hg] at hfind
      have htail := ih hfind
      by_cases hid : g.id = ex.id <;>
        simp [lookupRole_cons, hasKey_set_role, hg, hid, htail]

/-- The grant write of `approveRequest` materializes the requested role for
the request's `(project, user)` key. -/
theorem lookupRole_approveGrantStep (db : DBState) (newId : Nat)
    (req : AccessRequest) :
    lookupRole (approveGrantStep db newId req).grants req.projectId
      req.userId = some req.requestedRole := by
  unfold approveGrantStep
  split
  · rename_i ex hfind
    exact lookupRole_update_by_id db.grants req.projectId req.userId
      req.requestedRole ex (by simpa [Grant.hasKey] using hfind)
  · simp [lookupRole_cons, Grant.hasKey]

/-- The status write of `approveRequest` marks the request approved
(provided the request row exists). -/
theorem statusOf_approveStatusStep (reqs : List AccessRequest) (rid : Nat)
    (hex : ∃ x ∈ reqs, x.id = rid) :
    statusOf
      (reqs.map (fun r =>
        if r.id = rid then { r with status := .approved, respondedAt := true }
        else r)) rid = some .approved := by
  induction reqs with
  | nil => simp at hex
  | cons r t ih =>
    by_cases hr : r.id = rid
    · simp [statusOf_cons, hr]
    · obtain ⟨x, hx, hxid⟩ := hex
      rcases List.mem_cons.mp hx with rfl | hx
      · exact absurd hxid hr
      · simp [statusOf_cons, hr, ih ⟨x, hx, hxid⟩]

/-- C2 amended: `approveRequest` is two sequential writes, grant first, then
status: the completed run leaves the request approved with a response
timestamp and the grant with the requested role; and in every observable
state of the execution, if the request is marked approved then the matching
grant already exists (the converse fails at the intermediate state). -/
theorem approve_sequential_guarantee (db : DBState) (newId : Nat)
    (req : AccessRequest)
    (hreq : statusOf db.requests req.id = some .pending) :
    lookupRole (approveRequest db newId req).grants req.projectId
      req.userId = some req.requestedRole ∧
    statusOf (approveRequest db newId req).requests req.id = some .approved ∧
    ∀ s ∈ approveStates db newId req,
      statusOf s.requests req.id = some .approved →
        lookupRole s.grants req.projectId req.userId =
          some req.requestedRole := by
  have hex : ∃ x ∈ db.requests, x.id = req.id := by
    unfold statusOf at hreq
    rcases hf : db.requests.find? (·.id = req.id) with _ | x
    · rw [hf] at hreq; simp at hreq
    · refine ⟨x, List.mem_of_find?_eq_some hf, ?_⟩
      simpa using List.find?_some hf
  have hgrant :
      lookupRole (approveRequest db newId req).grants req.projectId
        req.userId = some req.requestedRole := by
    have hsame : (approveRequest db newId req).grants =
        (approveGrantStep db newId req).grants := rfl
    rw [hsame]
    exact lookupRole_approveGrantStep db newId req
  have hstatus :
      statusOf (approveRequest db newId req).requests req.id =
        some .approved := by
    have hsame : (approveRequest db newId req).requests =
        db.requests.map (fun r =>
          if r.id = req.id then { r with status := .approved, respondedAt := true }
          else r) := by
      show (approveGrantStep db newId req).requests.map _ = _
      rw [approveGrantStep_requests]
    rw [hsame]
    exact statusOf_approveStatusStep db.requests req.id hex
  refine ⟨hgrant, hstatus, ?_⟩
  intro s hs
  simp only [approveStates, List.mem_cons, List.not_mem_nil, or_false] at hs
  rcases hs with rfl | rfl | rfl
  · intro habs
    rw [hreq] at habs
    simp at habs
  · intro habs
    rw [approveGrantStep_requests, hreq] at habs
    simp at habs
  · intro _
    exact hgrant

/-- Witness for `approve_sequential_guarantee` on a concrete pending
request. -/
theorem approve_sequential_guarantee_witness :
    statusOf [⟨5, "p1", "u1", .edit, .pending, false⟩] 5 = some .pending ∧
    lookupRole
      (approveRequest ⟨[⟨9, "p1", "u1", .view⟩],
        [⟨5, "p1", "u1", .edit, .pending, false⟩]⟩ 7
        ⟨5, "p1", "u1", .edit, .pending, false⟩).grants "p1" "u1" =
      some .edit ∧
    statusOf
      (approveRequest ⟨[⟨9, "p1", "u1", .view⟩],
        [⟨5, "p1", "u1", .edit, .pending, false⟩]⟩ 7
        ⟨5, "p1", "u1", .edit, .pending, false⟩).requests 5 =
      some .approved := by
  have h := approve_sequential_guarantee
    ⟨[⟨9, "p1", "u1", .view⟩], [⟨5, "p1", "u1", .edit, .pending, false⟩]⟩ 7
    ⟨5, "p1", "u1", .edit, .pending, false⟩ (by decide)
  exact ⟨by decide, h.1, h.2.1⟩

/-- C3 counterexample: with a valid room code but a secret matching none of
the three stored per-role secrets, `validateLink` reports
`Invalid password. Please check your link.`, while an unknown room code
reports `Project not found. The link may be invalid or expired.` — the two
error contents are distinguishable, contrary to the claim. -/
theorem wrong_secret_error_distinguishable :
    validateLink (some ⟨"p1", "Proj", "o1", ⟨some "v", some "e", some "f"⟩⟩)
        "x" (some "u1") =
      .failure "Invalid password. Please check your link." ∧
    validateLink none "x" (some "u1") =
      .failure "Project not found. The link may be invalid or expired." ∧
    ("Invalid password. Please check your link." : String) ≠
      "Project not found. The link may be invalid or expired." := by
  decide

/-- C3 amended: a redemption attempt with a valid room code and a
non-matching secret creates or modifies no Collaborator Grant and reports
`Invalid password. Please check your link.`; an unknown room code also
leaves the grants untouched but reports the different message
`Project not found. The link may be invalid or expired.`. -/
theorem wrong_secret_no_grant (gs : List Grant) (newId : Nat)
    (project : LinkProject) (pw uid : String)
    (hnone : determineRole project.secrets pw = none) :
    (joinByLinkFlow gs newId (some project) pw uid).1 = gs ∧
    (joinByLinkFlow gs newId (some project) pw uid).2 =
      .failure "Invalid password. Please check your link." ∧
    (joinByLinkFlow gs newId none pw uid).1 = gs ∧
    (joinByLinkFlow gs newId none pw uid).2 =
      .failure "Project not found. The link may be invalid or expired." := by
  refine ⟨?_, ?_, by simp [joinByLinkFlow, validateLink], by simp [joinByLinkFlow, validateLink]⟩ <;>
    simp [joinByLinkFlow, validateLink, hnone]

/-- Witness for `wrong_secret_no_grant` at a concrete project and secret. -/
theorem wrong_secret_no_grant_witness :
    determineRole ⟨some "v", some "e", some "f"⟩ "x" = none ∧
    (joinByLinkFlow [⟨0, "p1", "u1", .view⟩] 1
      (some ⟨"p1", "Proj", "o1", ⟨some "v", some "e", some "f"⟩⟩) "x" "u1").1 =
      [⟨0, "p1", "u1", .view⟩] :=
  ⟨by decide,
    (wrong_secret_no_grant [⟨0, "p1", "u1", .view⟩] 1
      ⟨"p1", "Proj", "o1", ⟨some "v", some "e", some "f"⟩⟩ "x" "u1"
      (by decide)).1⟩

/-- The saver state after switching away from file `A` (persisted content
`"old"`, buffer `"new"`) at t = 0 ms: `handleFileSelect` routes the dirty
buffer through the shared debounced saver. -/
def lostSaveMid : SaverState :=
  handleFileSelectSave
    { pending := none,
      persisted := [("A", "old"), ("B", "b0"), ("C", "c0")] }
    (some ("A", "old")) "new" 0

/-- The state after then switching away from file `B` (buffer `"bx"`) at
t = 500 ms — before file `A`'s pending save could fire at t = 1000 ms — and
letting every remaining timer fire (t = 2000 ms). -/
def lostSaveFinal : SaverState :=
  fireDue (handleFileSelectSave lostSaveMid (some ("B", "b0")) "bx" 500) 2000

/-- C8, at the failing trace: switching away from a dirty file enqueues only
the shared 1-second debounced persist (nothing is persisted synchronously),
and a second dirty switch 500 ms later cancels it, so after all timers have
fired file `A`'s persisted content is still `"old"` — the edit `"new"` was
silently lost on navigation, contradicting the claim that the outgoing
buffer is persisted synchronously or as an immediate, non-debounced
persist. -/
theorem fileSwitch_edit_lost :
    lostSaveMid.persisted = [("A", "old"), ("B", "b0"), ("C", "c0")] ∧
    lostSaveMid.pending = some ("A", "new", 1000) ∧
    lostSaveFinal.pending = none ∧
    getContent lostSaveFinal.persisted "A" = some "old" ∧
    getContent lostSaveFinal.persisted "B" = some "bx" ∧
    ("old" : String) ≠ "new" := by
  decide

end CollabIDE
